import Mathlib

/-!
# Verification of the vortex broadcast / g-counter core

A shallow embedding of the replicated-state and gossip core of the
`vortex` repository (`src/challenges/broadcast/mod.rs`,
`src/challenges/broadcast/gossip.rs`, `src/challenges/broadcast/lru_cache.rs`,
`src/challenges/gcounter/mod.rs`, `src/challenges/cluster.rs`,
`src/challenges/node.rs`, `src/challenges/init.rs`),
together with proofs about the embedded definitions.

Modelling conventions:
* Rust `u64` values are modelled as `Nat` (no arithmetic in this core comes
  near overflow; the only arithmetic is `+ 1` on message-id counters and
  `+ delta` on counters).
* `HashSet<T>` is modelled as `Finset`, `HashMap<K, V>` as an association
  list (`List (K × V)`) with first-occurrence lookup and replace-or-append
  insertion, matching hash-map semantics up to iteration order.
* Stateful functions become explicit state passing; a Rust `panic!`
  (`unwrap` / `expect` on `None`) is modelled as `Except.error .panicked`,
  and a recoverable `Result::Err` (an `anyhow!` error returned to the
  caller) as `Except.error` with a dedicated recoverable constructor.
* Background threads are never executed inline in the Rust code — the
  handlers only spawn them and store a handle — so a thread handle is
  modelled as the `Bool` flag recording whether it has been spawned.
-/

set_option autoImplicit false

namespace Vortex

/-! ## Association-list model of `HashMap` -/

/-- First-occurrence lookup, the model of `HashMap::get`. -/
def lookupKV {α : Type} (m : List (String × α)) (k : String) : Option α :=
  match m with
  | [] => none
  | (k2, v) :: rest => if k2 = k then some v else lookupKV rest k

/-- Replace-or-append insertion, the model of `HashMap::insert`. -/
def insertKV {α : Type} (m : List (String × α)) (k : String) (v : α) :
    List (String × α) :=
  match m with
  | [] => [(k, v)]
  | (k2, v2) :: rest =>
      if k2 = k then (k, v) :: rest else (k2, v2) :: insertKV rest k v

/-- Model of `HashMap::entry(k).and_modify(|x| *x += d).or_insert(d)`
(from `gcounter::add`, src/challenges/gcounter/mod.rs lines 122-126). -/
def addEntry (m : List (String × Nat)) (k : String) (d : Nat) :
    List (String × Nat) :=
  match m with
  | [] => [(k, d)]
  | (k2, v2) :: rest =>
      if k2 = k then (k2, v2 + d) :: rest else (k2, v2) :: addEntry rest k d

/-! ## Message envelope (`BodyBase`, `Message` in the Rust crate root) -/

/-- `BodyBase`: the `type` / `msg_id` / `in_reply_to` fields shared by all
message bodies. -/
structure BodyBase where
  typ : String
  msg_id : Option Nat
  in_reply_to : Option Nat
deriving DecidableEq

/-- `Message<B>`: a routed envelope around a typed body. -/
structure Message (β : Type) where
  src : String
  dest : String
  body : β
deriving DecidableEq

/-! ## Broadcast data store (src/challenges/broadcast/mod.rs lines 55-92) -/

/-- `BroadcastData`: the per-node broadcast payload — the delivered value
set, the dedup ledger of seen `(origin, msg_id)` pairs, and the gossip
watermark. -/
structure BroadcastData where
  data : Finset Nat
  seen_msg : Finset (String × Nat)
  last_gossip_len : Nat
deriving DecidableEq

namespace BroadcastData

/-- `BroadcastData::new`. -/
def new : BroadcastData := { data := ∅, seen_msg := ∅, last_gossip_len := 0 }

/-- `BroadcastData::insert`. -/
def insert (b : BroadcastData) (value : Nat) : BroadcastData :=
  { b with data := Insert.insert value b.data }

/-- `BroadcastData::extend`: `self.data.extend(values)`, i.e. set union. -/
def extend (b : BroadcastData) (values : Finset Nat) : BroadcastData :=
  { b with data := b.data ∪ values }

/-- `BroadcastData::clone_data`. -/
def clone_data (b : BroadcastData) : Finset Nat := b.data

/-- `BroadcastData::add_if_not_present` (lines 83-91): returns `true` and
records the key when the `(origin, msg_id)` pair is new, returns `false`
and leaves the ledger unchanged when it was already seen. -/
def add_if_not_present (b : BroadcastData) (origin : String) (msg_id : Nat) :
    Bool × BroadcastData :=
  let key := (origin, msg_id)
  if key ∈ b.seen_msg then (false, b)
  else (true, { b with seen_msg := Insert.insert key b.seen_msg })

end BroadcastData

/-! ## Node and cluster (src/challenges/node.rs, src/challenges/cluster.rs) -/

/-- `GcounterData`: the per-node g-counter payload — the per-origin
contribution map and the counter gossip-thread handle. -/
structure GcounterData where
  node_data : List (String × Nat)
  gossip_thread : Bool
deriving DecidableEq

/-- `Node` (src/challenges/node.rs).  The broadcast module additionally
accesses `node.broadcast_data` and `node.gossip_thread` fields
(src/challenges/broadcast/mod.rs lines 203, 211-213), which are included
here with lazily-absent defaults. -/
structure Node where
  id : String
  peers : List String
  next_msg_id : Nat
  gcounter_data : GcounterData
  broadcast_data : Option BroadcastData
  gossip_thread : Bool
deriving DecidableEq

/-- `Node::get_next_id`: returns the current counter value and increments
it. -/
def Node.get_next_id (n : Node) : Nat × Node :=
  (n.next_msg_id, { n with next_msg_id := n.next_msg_id + 1 })

/-- `Cluster` (src/challenges/cluster.rs): the node registry plus the
topology completion latch. -/
structure Cluster where
  nodes : List (String × Node)
  is_topology_done : Bool
deriving DecidableEq

/-- `Cluster::new`. -/
def Cluster.new : Cluster := { nodes := [], is_topology_done := false }

/-- `Cluster::add_node`: `self.nodes.insert(node.id.clone(), node)` —
a plain `HashMap` insert keyed by the node's id. -/
def Cluster.add_node (cl : Cluster) (node : Node) : Cluster :=
  { cl with nodes := insertKV cl.nodes node.id node }

/-- `Cluster::get_node_mut` as a pure lookup. -/
def Cluster.get_node (cl : Cluster) (id : String) : Option Node :=
  lookupKV cl.nodes id

/-- Writing back a node mutated through the `&mut` borrow obtained from
`get_node_mut(key)`: the entry at `key` is replaced. -/
def Cluster.update_node (cl : Cluster) (key : String) (node : Node) : Cluster :=
  { cl with nodes := insertKV cl.nodes key node }

/-! ## Handler outcome model -/

/-- How a handler invocation ends when it does not return `Ok`:
`panicked` models a Rust `unwrap`/`expect` failure (a crash), while
`unknownNode` / `missingField` model recoverable `anyhow` errors returned
as `Result::Err` to the caller. -/
inductive HandlerError where
  | panicked : HandlerError
  | unknownNode : String → HandlerError
  | missingField : String → HandlerError
deriving DecidableEq

instance {ε α : Type} [DecidableEq ε] [DecidableEq α] : DecidableEq (Except ε α) :=
  fun x y =>
    match x, y with
    | .ok a, .ok b =>
        if h : a = b then .isTrue (h ▸ rfl)
        else .isFalse (fun hh => h (Except.ok.inj hh))
    | .ok _, .error _ => .isFalse (fun hh => Except.noConfusion hh)
    | .error _, .ok _ => .isFalse (fun hh => Except.noConfusion hh)
    | .error e, .error f =>
        if h : e = f then .isTrue (h ▸ rfl)
        else .isFalse (fun hh => h (Except.error.inj hh))

/-! ## Message bodies -/

/-- `BroadcastBody` (src/challenges/broadcast/mod.rs lines 24-31). -/
structure BroadcastBody where
  base : BodyBase
  message : Option Nat
deriving DecidableEq

/-- `ReadBody` of the broadcast module (lines 33-40). -/
structure ReadBody where
  base : BodyBase
  messages : Option (Finset Nat)
deriving DecidableEq

/-- `TopologyBody` (lines 42-49); the incoming `topology` field is ignored
by the handler, so only its presence is modelled. -/
structure TopologyBody where
  base : BodyBase
  topology : Option (List (String × List String))
deriving DecidableEq

/-- `GossipBody` (src/challenges/broadcast/gossip.rs lines 12-22). -/
structure GossipBody where
  base : BodyBase
  gossip_data : Option (Finset Nat)
  org_msg_id : Nat
  org_msg_src : String
deriving DecidableEq

/-- `InitBody` (src/challenges/init.rs lines 13-23). -/
structure InitBody where
  base : BodyBase
  node_id : Option String
  node_ids : Option (List String)
deriving DecidableEq

/-- `AddBody` of the gcounter module (src/challenges/gcounter/mod.rs
lines 25-32). -/
structure AddBody where
  base : BodyBase
  delta : Option Nat
deriving DecidableEq

/-- `ReadBody` of the gcounter module (lines 16-23). -/
structure CounterReadBody where
  base : BodyBase
  value : Option Nat
deriving DecidableEq

/-- `GossipBody` of the gcounter module (lines 34-41). -/
structure CounterGossipBody where
  base : BodyBase
  value : Option Nat
deriving DecidableEq

/-! ## Init handler (src/challenges/init.rs lines 26-58) -/

/-- `init`: builds a `Node` from the init message (unwrapping `node_id`
and `node_ids`, a panic if either is absent) and registers it with
`Cluster::add_node`, then replies `init_ok`. -/
def init (cl : Cluster) (msg : Message InitBody) :
    Except HandlerError (Cluster × Message InitBody) :=
  match msg.body.node_id with
  | none => .error .panicked
  | some node_id =>
    match msg.body.node_ids with
    | none => .error .panicked
    | some peers =>
      let node : Node :=
        { id := node_id, peers := peers, next_msg_id := 0,
          gcounter_data := { node_data := [], gossip_thread := false },
          broadcast_data := none, gossip_thread := false }
      let cl := cl.add_node node
      let response : Message InitBody :=
        { src := node_id, dest := msg.src,
          body := { base := { typ := "init_ok",
                              in_reply_to := msg.body.base.msg_id,
                              msg_id := none },
                    node_id := none, node_ids := none } }
      .ok (cl, response)

/-! ## G-counter handlers (src/challenges/gcounter/mod.rs) -/

/-- `gcounter::add` (lines 104-142): fails with a recoverable error when
the destination node is unknown or `delta` is missing; otherwise spawns
the counter gossip thread if needed, adds `delta` to the node's own
entry, and replies `add_ok`. -/
def Gcounter.add (cl : Cluster) (msg : Message AddBody) :
    Except HandlerError (Cluster × Message AddBody) :=
  match cl.get_node msg.dest with
  | none => .error (.unknownNode msg.dest)
  | some node =>
    let node :=
      if node.gcounter_data.gossip_thread then node
      else { node with gcounter_data :=
              { node.gcounter_data with gossip_thread := true } }
    match msg.body.delta with
    | none => .error (.missingField "delta")
    | some delta =>
      let node :=
        { node with gcounter_data :=
            { node.gcounter_data with
                node_data := addEntry node.gcounter_data.node_data node.id delta } }
      let (mid, node) := node.get_next_id
      let response : Message AddBody :=
        { src := node.id, dest := msg.src,
          body := { base := { typ := "add_ok", msg_id := some mid,
                              in_reply_to := msg.body.base.msg_id },
                    delta := none } }
      .ok (cl.update_node msg.dest node, response)

/-- Sum of all entries of the counter map, the model of
`node_data.values().sum::<u64>()`. -/
def sumValues (m : List (String × Nat)) : Nat := (m.map Prod.snd).sum

/-- `gcounter::read` (lines 143-167): fails with a recoverable error when
the destination node is unknown; otherwise replies `read_ok` with the sum
of all entries. -/
def Gcounter.read (cl : Cluster) (msg : Message CounterReadBody) :
    Except HandlerError (Cluster × Message CounterReadBody) :=
  match cl.get_node msg.dest with
  | none => .error (.unknownNode msg.dest)
  | some node =>
    let sum := sumValues node.gcounter_data.node_data
    let (mid, node) := node.get_next_id
    let response : Message CounterReadBody :=
      { src := node.id, dest := msg.src,
        body := { base := { typ := "read_ok", msg_id := some mid,
                            in_reply_to := msg.body.base.msg_id },
                  value := some sum } }
    .ok (cl.update_node msg.dest node, response)

/-- `gcounter::gossip` (lines 169-182): fails with a recoverable error
when the destination node is unknown; otherwise overwrites the cached
entry for the sender with the received value (`value.unwrap()` is a panic
when the field is absent).  No reply is sent. -/
def Gcounter.gossip (cl : Cluster) (msg : Message CounterGossipBody) :
    Except HandlerError Cluster :=
  match cl.get_node msg.dest with
  | none => .error (.unknownNode msg.dest)
  | some node =>
    match msg.body.value with
    | none => .error .panicked
    | some v =>
      let node :=
        { node with gcounter_data :=
            { node.gcounter_data with
                node_data := insertKV node.gcounter_data.node_data msg.src v } }
      .ok (cl.update_node msg.dest node)

/-! ## Counter operations in isolation

The state transitions the two mutating gcounter handlers apply to a
node's contribution map: `gcounter::add` adds the delta to the node's own
entry (src/challenges/gcounter/mod.rs lines 122-126) and
`gcounter::gossip` overwrites the sender's entry with the received value
(lines 177-180). -/

/-- A counter operation as applied to one node's `node_data`. -/
inductive CounterOp where
  | add (delta : Nat)
  | gossip (src : String) (value : Nat)
deriving DecidableEq

/-- The mutation each counter operation performs on the contribution map
of a node whose own id is `ownId`. -/
def counterStep (ownId : String) (m : List (String × Nat)) :
    CounterOp → List (String × Nat)
  | .add d => addEntry m ownId d
  | .gossip src v => insertKV m src v

/-! ## Topology builder (src/challenges/broadcast/mod.rs lines 322-395) -/

/-- `HashMap<String, Vec<String>>`: the adjacency map. -/
abbrev Graph := List (String × List String)

/-- `graph.get(k)` with the empty default, as used by the BFS and by
`apply_topology_to_cluster` (`unwrap_or_default`). -/
def graphGet (g : Graph) (k : String) : List String := (lookupKV g k).getD []

/-- `graph.entry(a).or_default().push(b)`: append `b` to `a`'s adjacency
list, creating the entry when absent. -/
def graphPush (g : Graph) (a b : String) : Graph :=
  match g with
  | [] => [(a, [b])]
  | (k, vs) :: rest =>
      if k = a then (k, vs ++ [b]) :: rest else (k, vs) :: graphPush rest a b

/-- `add_bidirectional_edge` (lines 348-351). -/
def add_bidirectional_edge (g : Graph) (a b : String) : Graph :=
  graphPush (graphPush g a b) b a

/-- The inner `for neighbor in neighbors` loop of `is_within_two_hops`
(lines 382-391): returns `none` when a neighbor equals the target (the
Rust `return true`), otherwise the updated visited set and queue with
every newly visited neighbor enqueued at `depth + 1`. -/
def visitNeighbors (target : String) :
    List String → List String → List (String × Nat) → Nat →
    Option (List String × List (String × Nat))
  | [], visited, queue, _ => some (visited, queue)
  | n :: ns, visited, queue, depth =>
      if n = target then none
      else if visited.contains n then visitNeighbors target ns visited queue depth
      else visitNeighbors target ns (n :: visited) (queue ++ [(n, depth + 1)]) depth

/-- The `while let Some((current, depth)) = queue.pop_front()` loop of
`is_within_two_hops` (lines 377-392), with explicit fuel.  Each iteration
pops exactly one queue element, so any fuel at least the total number of
elements ever enqueued makes the recursion equivalent to the Rust loop. -/
def bfsLoop (g : Graph) (target : String) :
    Nat → List (String × Nat) → List String → Bool
  | 0, _, _ => false
  | _ + 1, [], _ => false
  | fuel + 1, (current, depth) :: rest, visited =>
      if 2 ≤ depth then bfsLoop g target fuel rest visited
      else
        match visitNeighbors target (graphGet g current) visited rest depth with
        | none => true
        | some (visited2, queue2) => bfsLoop g target fuel queue2 visited2

/-- Fuel bound for the BFS: every element ever enqueued is either the
start node or a string newly inserted into the visited set, and each
distinct string is inserted at most once, so the number of loop
iterations is at most `1 +` the total length of all adjacency lists. -/
def bfsFuel (g : Graph) : Nat := 1 + (g.map (fun e => e.2.length)).sum

/-- `is_within_two_hops` (lines 366-395): depth-2-bounded BFS from
`start` over the accumulated edges. -/
def is_within_two_hops (g : Graph) (start target : String) : Bool :=
  if start = target then true
  else bfsLoop g target (bfsFuel g) [(start, 0)] [start]

/-- The ordered `(nodes[i], nodes[j])` pairs with `i < j`, in the
iteration order of the nested `for i` / `for j in (i+1)..` loops. -/
def allPairs {α : Type} : List α → List (α × α)
  | [] => []
  | x :: xs => xs.map (fun y => (x, y)) ++ allPairs xs

/-- The body of the second pass of `build_optimized_topology` (lines
337-343): add a shortcut edge unless the pair is already within two
hops. -/
def topoStep (g : Graph) (ab : String × String) : Graph :=
  if is_within_two_hops g ab.1 ab.2 then g
  else add_bidirectional_edge g ab.1 ab.2

/-- `build_optimized_topology` (lines 327-346): chain pass over
consecutive ids, then a shortcut edge for every ordered pair not already
within two hops of each other in the graph built so far. -/
def build_optimized_topology (nodes : List String) : Graph :=
  let chain := (nodes.zip nodes.tail).foldl
    (fun g ab => add_bidirectional_edge g ab.1 ab.2) []
  (allPairs nodes).foldl topoStep chain

/-- `apply_topology_to_cluster` (lines 353-363): replace each listed
node's peer list with its adjacency list in the graph. -/
def apply_topology_to_cluster (cl : Cluster) (graph : Graph)
    (nodes : List String) : Cluster :=
  nodes.foldl
    (fun cl node_id =>
      match cl.get_node node_id with
      | some node => cl.update_node node_id { node with peers := graphGet graph node_id }
      | none => cl) cl

/-! ## Gossip batch preparation and messages
(src/challenges/broadcast/mod.rs lines 118-191) -/

/-- `create_gossip_message` (lines 169-191). -/
def create_gossip_message (src dest : String) (msg_id : Nat)
    (data : Finset Nat) (org_msg_id : Nat) (org_msg_src : String) :
    Message GossipBody :=
  { src := src, dest := dest,
    body := { base := { typ := "gossip", msg_id := some msg_id,
                        in_reply_to := none },
              gossip_data := some data,
              org_msg_id := org_msg_id, org_msg_src := org_msg_src } }

/-- The `peer_list.into_iter().map(|peer| (peer, node.get_next_id()))`
step of `prepare_gossip_batch` (lines 135-142): one fresh message id per
peer, threading the node's id counter. -/
def assignIds : Node → List String → Node × List (String × Nat)
  | node, [] => (node, [])
  | node, peer :: rest =>
      let (mid, node) := node.get_next_id
      let (node, others) := assignIds node rest
      (node, (peer, mid) :: others)

/-- `prepare_gossip_batch` (lines 118-145).  Returns the updated cluster
(lazy payload creation and, on the `Some` path, the advanced watermark
and id counter) together with the optional batch: `none` when the node is
absent or when the value-set size equals the stored watermark, otherwise
the source id, the full value set, and one `(peer, msg_id)` target per
peer other than the node itself. -/
def prepare_gossip_batch (cl : Cluster) (node_id : String) :
    Cluster × Option (String × Finset Nat × List (String × Nat)) :=
  match cl.get_node node_id with
  | none => (cl, none)
  | some node =>
    let bd := node.broadcast_data.getD BroadcastData.new
    let gossip_data := bd.clone_data
    if gossip_data.card = bd.last_gossip_len then
      (cl.update_node node_id { node with broadcast_data := some bd }, none)
    else
      let bd := { bd with last_gossip_len := gossip_data.card }
      let node := { node with broadcast_data := some bd }
      let src := node.id
      let peer_list := node.peers
      let (node, peers) :=
        assignIds node (peer_list.filter (fun peer => peer ≠ node.id))
      (cl.update_node node_id node, some (src, gossip_data, peers))

/-- `send_gossip_to_peers` (lines 147-167) as the list of messages it
writes, in order. -/
def send_gossip_to_peers (src : String) (data : Finset Nat)
    (peers : List (String × Nat)) (org_msg_id : Nat) (org_msg_src : String) :
    List (Message GossipBody) :=
  peers.map (fun pm => create_gossip_message src pm.1 pm.2 data org_msg_id org_msg_src)

/-! ## Broadcast handlers (src/challenges/broadcast/mod.rs lines 197-320,
src/challenges/broadcast/gossip.rs lines 24-80) -/

/-- The `peer_list.into_iter().map(...)` step of `broadcast` (lines
228-241): builds one gossip message per peer; the closure unwraps the
incoming message's `msg_id` (a panic when absent), evaluated only when
the peer list is non-empty. -/
def broadcastGossipMsgs (node : Node) (node_id : String) (data : Finset Nat)
    (org_msg_id : Option Nat) (org_msg_src : String) :
    List String → Except HandlerError (Node × List (Message GossipBody))
  | [] => .ok (node, [])
  | peer :: rest =>
      match org_msg_id with
      | none => .error .panicked
      | some org_id =>
        let (mid, node) := node.get_next_id
        match broadcastGossipMsgs node node_id data org_msg_id org_msg_src rest with
        | .error e => .error e
        | .ok (node, msgs) =>
            .ok (node, create_gossip_message node_id peer mid data org_id org_msg_src :: msgs)

/-- `broadcast` (lines 197-265): unwraps the destination node (a panic
when unknown), inserts the incoming value, spawns the gossip thread on
first use, advances the watermark to the current value-set size, builds
one gossip message per peer other than itself (tagged with the incoming
message's id and source as origin reference), and replies
`broadcast_ok`. -/
def broadcast (cl : Cluster) (msg : Message BroadcastBody) :
    Except HandlerError (Cluster × List (Message GossipBody) × Message BroadcastBody) :=
  match cl.get_node msg.dest with
  | none => .error .panicked
  | some node =>
    let bd := node.broadcast_data.getD BroadcastData.new
    let bd :=
      match msg.body.message with
      | some value => bd.insert value
      | none => bd
    let node := { node with broadcast_data := some bd }
    let node := if node.gossip_thread then node else { node with gossip_thread := true }
    let gossip_data := bd.clone_data
    let bd := { bd with last_gossip_len := gossip_data.card }
    let node := { node with broadcast_data := some bd }
    let node_id := node.id
    let peer_list := node.peers.filter (fun peer => peer ≠ node_id)
    match broadcastGossipMsgs node node_id gossip_data msg.body.base.msg_id msg.src peer_list with
    | .error e => .error e
    | .ok (node, gossip_messages) =>
      let (mid, node) := node.get_next_id
      let response : Message BroadcastBody :=
        { src := node.id, dest := msg.src,
          body := { base := { typ := "broadcast_ok", msg_id := some mid,
                              in_reply_to := msg.body.base.msg_id },
                    message := none } }
      .ok (cl.update_node msg.dest node, gossip_messages, response)

/-- Broadcast `read` (lines 267-290): unwraps the destination node (a
panic when unknown) and replies `read_ok` with a copy of the value set. -/
def read (cl : Cluster) (msg : Message ReadBody) :
    Except HandlerError (Cluster × Message ReadBody) :=
  match cl.get_node msg.dest with
  | none => .error .panicked
  | some node =>
    let bd := node.broadcast_data.getD BroadcastData.new
    let node := { node with broadcast_data := some bd }
    let messages := bd.clone_data
    let (mid, node) := node.get_next_id
    let response : Message ReadBody :=
      { src := node.id, dest := msg.src,
        body := { base := { typ := "read_ok", msg_id := some mid,
                            in_reply_to := msg.body.base.msg_id },
                  messages := some messages } }
    .ok (cl.update_node msg.dest node, response)

/-- `topology` (lines 292-320): unwraps the destination node (a panic
when unknown); on first invocation builds the optimized topology from the
node's peer list and writes the adjacency lists back into every listed
node, latching `is_topology_done`; replies `topology_ok`. -/
def topology (cl : Cluster) (msg : Message TopologyBody) :
    Except HandlerError (Cluster × Message TopologyBody) :=
  match cl.get_node msg.dest with
  | none => .error .panicked
  | some node =>
    let node_id := node.id
    let all_nodes := node.peers
    let cl :=
      if cl.is_topology_done then cl
      else
        let graph := build_optimized_topology all_nodes
        let cl := apply_topology_to_cluster cl graph all_nodes
        { cl with is_topology_done := true }
    let response : Message TopologyBody :=
      { src := node_id, dest := msg.src,
        body := { base := { typ := "topology_ok", msg_id := none,
                            in_reply_to := msg.body.base.msg_id },
                  topology := none } }
    .ok (cl, response)

/-- `gossip` (src/challenges/broadcast/gossip.rs lines 24-80): unwraps
the destination node (a panic when unknown), merges the incoming value
set (`gossip_data.unwrap()`, a panic when absent), spawns the gossip
thread on first use; when the message is an ack (`gossip_ok`) or its
origin reference was already observed, returns with no reply and no
fan-out; otherwise builds a `gossip_ok` reply, releases the lock, and
unwraps the result of `prepare_gossip_batch` (a panic when it is `None`)
to fan one round of gossip out to the peers, tagged with the incoming
origin reference.  The result carries the fan-out messages and the
optional reply. -/
def gossip (cl : Cluster) (msg : Message GossipBody) :
    Except HandlerError (Cluster × List (Message GossipBody) × Option (Message GossipBody)) :=
  match cl.get_node msg.dest with
  | none => .error .panicked
  | some node =>
    let node :=
      if node.broadcast_data.isSome then node
      else { node with broadcast_data := some BroadcastData.new }
    match msg.body.gossip_data with
    | none => .error .panicked
    | some incoming =>
      let bd := (node.broadcast_data.getD BroadcastData.new).extend incoming
      let node := { node with broadcast_data := some bd }
      let node := if node.gossip_thread then node else { node with gossip_thread := true }
      if msg.body.base.typ = "gossip_ok" then
        .ok (cl.update_node msg.dest node, [], none)
      else
        let (fresh, bd2) := bd.add_if_not_present msg.body.org_msg_src msg.body.org_msg_id
        let node := { node with broadcast_data := some bd2 }
        if fresh = false then
          .ok (cl.update_node msg.dest node, [], none)
        else
          let (mid, node) := node.get_next_id
          let src := node.id
          let response : Message GossipBody :=
            { src := node.id, dest := msg.src,
              body := { base := { typ := "gossip_ok",
                                  in_reply_to := msg.body.base.msg_id,
                                  msg_id := some mid },
                        gossip_data := some bd2.data,
                        org_msg_id := msg.body.org_msg_id,
                        org_msg_src := msg.body.org_msg_src } }
          let cl := cl.update_node msg.dest node
          match prepare_gossip_batch cl src with
          | (_, none) => .error .panicked
          | (cl2, some (src2, data, peers)) =>
            let fanout :=
              if peers.isEmpty then []
              else send_gossip_to_peers src2 data peers msg.body.org_msg_id msg.body.org_msg_src
            .ok (cl2, fanout, some response)

/-! ## LRU cache (src/challenges/broadcast/lru_cache.rs)

The doubly-linked list is modelled as the sequence of values it holds,
head (most recently used) first; `detach_node` of a reachable node is
removal of its value from the sequence and `push_front` is consing.  The
`node_hashmap` (keys to list-node pointers) is modelled as its key
set. -/

/-- `LRUCache`: fixed capacity, recency order (head = most recently
used), and the lookup-table key set. -/
structure LRUCache where
  size : Nat
  order : List Nat
  keys : Finset Nat
deriving DecidableEq

namespace LRUCache

/-- `LRUCache::new`. -/
def new (size : Nat) : LRUCache := { size := size, order := [], keys := ∅ }

/-- `LRUCache::remove_last_used_val` (lines 61-67): when the list is
non-empty, detach its tail node and remove the tail's value from the
lookup table. -/
def remove_last_used_val (c : LRUCache) : LRUCache :=
  match c.order.getLast? with
  | none => c
  | some v => { c with order := c.order.dropLast, keys := c.keys.erase v }

/-- `LRUCache::add_val` (lines 40-59): an existing key is detached and
pushed to the front; an absent key is pushed to the front and inserted
into the lookup table, and when the table then exceeds the capacity the
least-recently-used value is removed. -/
def add_val (c : LRUCache) (val : Nat) : LRUCache :=
  if val ∈ c.keys then { c with order := val :: c.order.erase val }
  else
    let c := { c with order := val :: c.order, keys := Insert.insert val c.keys }
    if c.size < c.keys.card then remove_last_used_val c else c

/-- The representation invariant tying the two backing structures
together: the list holds no duplicates and the lookup table's key set is
exactly the set of values on the list. -/
def WF (c : LRUCache) : Prop := c.order.Nodup ∧ c.keys = c.order.toFinset

end LRUCache

/-! ## Statement-level definitions

Property vocabulary the theorems are phrased in.  These follow the
spec's words (symmetry, hop distance), not the code. -/

/-- `adjacent g a b`: the graph has a directed edge from `a` to `b`. -/
def adjacent (g : Graph) (a b : String) : Prop := b ∈ graphGet g a

/-- A graph is symmetric when every edge `a → b` is matched by `b → a`. -/
def SymmGraph (g : Graph) : Prop := ∀ a b, adjacent g a b → adjacent g b a

/-- `reachN g n a b`: `b` is connected to `a` by a path of at most `n`
edges. -/
def reachN (g : Graph) : Nat → String → String → Prop
  | 0, a, b => a = b
  | n + 1, a, b => reachN g n a b ∨ ∃ v, reachN g n a v ∧ adjacent g v b

/-- `k + 1` successive `add_if_not_present` calls with the same
`(origin, msg_id)` pair, returning the result of the last call. -/
def iterObserve (b : BroadcastData) (origin : String) (msg_id : Nat) :
    Nat → Bool × BroadcastData
  | 0 => b.add_if_not_present origin msg_id
  | k + 1 => ((iterObserve b origin msg_id k).2).add_if_not_present origin msg_id

/-- The success value of an `Except`, when present. -/
def exceptOk? {ε α : Type} : Except ε α → Option α
  | .ok a => some a
  | .error _ => none

/-- The `gossip_ok` reply produced by a run of the broadcast `gossip`
handler, when one was produced. -/
def gossipReply
    (r : Except HandlerError (Cluster × List (Message GossipBody) × Option (Message GossipBody))) :
    Option (Message GossipBody) :=
  match r with
  | .ok (_, _, rep) => rep
  | .error _ => none

/-- The value field of the `read_ok` reply the counter `read` handler
sends for a probe message, when the handler succeeds. -/
def counterReadValue (cl : Cluster) (src dest : String) : Option Nat :=
  match Gcounter.read cl
      { src := src, dest := dest,
        body := { base := { typ := "read", msg_id := some 0, in_reply_to := none },
                  value := none } } with
  | .ok (_, reply) => reply.body.value
  | .error _ => none

/-- The cluster state after a counter `gossip` message (unchanged when
the handler fails). -/
def counterGossipCluster (cl : Cluster) (msg : Message CounterGossipBody) : Cluster :=
  match Gcounter.gossip cl msg with
  | .ok cl2 => cl2
  | .error _ => cl

/-- The cluster state after an `init` message (unchanged when the handler
fails). -/
def initCluster (cl : Cluster) (msg : Message InitBody) : Cluster :=
  match init cl msg with
  | .ok (cl2, _) => cl2
  | .error _ => cl

/-- The cluster state after a `broadcast` message (unchanged when the
handler fails). -/
def broadcastCluster (cl : Cluster) (msg : Message BroadcastBody) : Cluster :=
  match broadcast cl msg with
  | .ok (cl2, _, _) => cl2
  | .error _ => cl

/-! # Theorems -/

/-! ## Association-list lemmas -/

theorem lookupKV_insertKV_self {α : Type} (m : List (String × α)) (k : String) (v : α) :
    lookupKV (insertKV m k v) k = some v := by
  induction m with
  | nil => simp [insertKV, lookupKV]
  | cons hd t ih =>
    obtain ⟨k2, v2⟩ := hd
    by_cases hk : k2 = k
    · simp [insertKV, lookupKV, hk]
    · simp [insertKV, lookupKV, hk, ih]

theorem lookupKV_insertKV_ne {α : Type} (m : List (String × α)) (k k2 : String) (v : α)
    (h : k2 ≠ k) : lookupKV (insertKV m k v) k2 = lookupKV m k2 := by
  induction m with
  | nil =>
    simp only [insertKV, lookupKV]
    rw [if_neg (fun hh => h hh.symm)]
  | cons hd t ih =>
    obtain ⟨k3, v3⟩ := hd
    by_cases hk : k3 = k
    · subst hk
      simp only [insertKV, if_pos rfl, lookupKV]
      rw [if_neg (fun hh => h hh.symm), if_neg (fun hh => h hh.symm)]
    · simp only [insertKV, if_neg hk, lookupKV]
      by_cases hq : k3 = k2
      · simp [hq]
      · simp [hq, ih]

theorem get_node_update_self (cl : Cluster) (key : String) (node : Node) :
    (cl.update_node key node).get_node key = some node := by
  simp [Cluster.get_node, Cluster.update_node, lookupKV_insertKV_self]

theorem get_node_update_ne (cl : Cluster) (key k2 : String) (node : Node)
    (h : k2 ≠ key) : (cl.update_node key node).get_node k2 = cl.get_node k2 := by
  simp [Cluster.get_node, Cluster.update_node, lookupKV_insertKV_ne _ _ _ _ h]

theorem sumValues_addEntry (m : List (String × Nat)) (k : String) (d : Nat) :
    sumValues (addEntry m k d) = sumValues m + d := by
  induction m with
  | nil => simp [addEntry, sumValues]
  | cons hd t ih =>
    obtain ⟨k2, v2⟩ := hd
    by_cases hk : k2 = k
    · simp [addEntry, hk, sumValues]
      omega
    · simp [addEntry, hk, sumValues] at ih ⊢
      omega

theorem sumValues_insertKV (m : List (String × Nat)) (k : String) (v : Nat) :
    sumValues (insertKV m k v) + (lookupKV m k).getD 0 = sumValues m + v := by
  induction m with
  | nil => simp [insertKV, lookupKV, sumValues]
  | cons hd t ih =>
    obtain ⟨k2, v2⟩ := hd
    by_cases hk : k2 = k
    · simp [insertKV, lookupKV, hk, sumValues]
      omega
    · simp [insertKV, lookupKV, hk, sumValues] at ih ⊢
      omega

/-! ## Dedup ledger lemmas -/

theorem add_if_not_present_mem (b : BroadcastData) (o : String) (i : Nat) :
    (o, i) ∈ (b.add_if_not_present o i).2.seen_msg := by
  unfold BroadcastData.add_if_not_present
  by_cases h : (o, i) ∈ b.seen_msg <;> simp [h]

theorem add_if_not_present_fst_of_mem (b : BroadcastData) (o : String) (i : Nat)
    (h : (o, i) ∈ b.seen_msg) : (b.add_if_not_present o i).1 = false := by
  simp [BroadcastData.add_if_not_present, h]

theorem iterObserve_mem (b : BroadcastData) (o : String) (i : Nat) :
    ∀ k, (o, i) ∈ (iterObserve b o i k).2.seen_msg
  | 0 => add_if_not_present_mem b o i
  | k + 1 => by
    simpa [iterObserve] using add_if_not_present_mem (iterObserve b o i k).2 o i

/-- C2.  For every `(origin, message-id)` pair and every starting
dedup-ledger state in which that pair is absent, the first
`add_if_not_present` call with that pair returns `true`, and every
subsequent call with the same pair on the resulting states returns
`false`. -/
theorem claim2_observe_first_true_then_false (b : BroadcastData) (o : String) (i : Nat)
    (h : (o, i) ∉ b.seen_msg) :
    ∀ k, (iterObserve b o i k).1 = decide (k = 0) := by
  intro k
  cases k with
  | zero => simp [iterObserve, BroadcastData.add_if_not_present, h]
  | succ k =>
    simp only [iterObserve]
    rw [add_if_not_present_fst_of_mem _ _ _ (iterObserve_mem b o i k)]
    simp

/-- Witness for C2 at a concrete ledger and pair. -/
theorem claim2_witness :
    (("n1", 0) ∉ BroadcastData.new.seen_msg) ∧
    (iterObserve BroadcastData.new "n1" 0 3).1 = decide (3 = 0) := by
  refine ⟨by decide, claim2_observe_first_true_then_false BroadcastData.new "n1" 0 (by decide) 3⟩

/-- C8.  Merging an incoming value set `S` twice yields the same value
set as merging it once, and merging two sets in either order yields the
same value set: `BroadcastData::extend` is idempotent and commutative on
the value set. -/
theorem claim8_extend_idempotent_commutative (b : BroadcastData) (S T : Finset Nat) :
    ((b.extend S).extend S).data = (b.extend S).data ∧
    ((b.extend S).extend T).data = ((b.extend T).extend S).data := by
  constructor
  · simp [BroadcastData.extend, Finset.union_assoc]
  · simp [BroadcastData.extend, Finset.union_comm S T]

/-! ## C3: counter monotonicity -/

/-- C3, counterexample.  The counter `gossip` handler overwrites the
sender's entry with the received value, so a reordered (stale) gossip
message strictly decreases the `read` value: with `n1` holding
`{n2 ↦ 5}`, a gossip from `n2` carrying `3` drops `read` from 5 to 3. -/
theorem claim3_counterexample_stale_gossip_decreases_read :
    counterReadValue
      { nodes := [("n1",
          { id := "n1", peers := [], next_msg_id := 0,
            gcounter_data := { node_data := [("n2", 5)], gossip_thread := true },
            broadcast_data := none, gossip_thread := false })],
        is_topology_done := false } "c0" "n1" = some 5 ∧
    counterReadValue
      (counterGossipCluster
        { nodes := [("n1",
            { id := "n1", peers := [], next_msg_id := 0,
              gcounter_data := { node_data := [("n2", 5)], gossip_thread := true },
              broadcast_data := none, gossip_thread := false })],
          is_topology_done := false }
        { src := "n2", dest := "n1",
          body := { base := { typ := "gossip", msg_id := some 9, in_reply_to := none },
                    value := some 3 } }) "c0" "n1" = some 3 := by
  decide

/-- C3, amended.  The `read` value (the sum of all entries) never
decreases under `add` operations, and never decreases under a `gossip`
operation whose received value is at least the receiver's currently
stored entry for the sender — the situation when each sender's gossip
arrives in send order.  (A reordered, stale gossip value can decrease
it, as the counterexample shows.) -/
theorem claim3_read_monotone_without_stale_gossip (own : String)
    (m : List (String × Nat)) (op : CounterOp)
    (h : ∀ src v, op = CounterOp.gossip src v → (lookupKV m src).getD 0 ≤ v) :
    sumValues m ≤ sumValues (counterStep own m op) := by
  cases op with
  | add d =>
    simp [counterStep, sumValues_addEntry]
  | gossip src v =>
    have heq := sumValues_insertKV m src v
    have hv := h src v rfl
    simp only [counterStep]
    omega

/-- Witness for the amended C3 at a concrete map and operation. -/
theorem claim3_witness :
    (∀ src v, CounterOp.gossip "n2" 7 = CounterOp.gossip src v →
      (lookupKV [("n2", 5)] src).getD 0 ≤ v) ∧
    sumValues [("n2", 5)] ≤
      sumValues (counterStep "n1" [("n2", 5)] (CounterOp.gossip "n2" 7)) := by
  have h : ∀ src v, CounterOp.gossip "n2" 7 = CounterOp.gossip src v →
      (lookupKV [("n2", 5)] src).getD 0 ≤ v := by
    intro src v hh
    injection hh with h1 h2
    subst h1
    subst h2
    decide
  exact ⟨h, claim3_read_monotone_without_stale_gossip "n1" [("n2", 5)] (CounterOp.gossip "n2" 7) h⟩

/-! ## C7: registration -/

/-- C7, counterexample.  `Cluster::add_node` is a plain `HashMap` insert:
re-registering an existing id succeeds (no failure) and replaces the
stored `NodeState` — here `n1`'s peer list changes from `["a"]` to
`["b"]` after a second `init`. -/
theorem claim7_counterexample_register_replaces :
    (exceptOk? (init
      { nodes := [("n1",
          { id := "n1", peers := ["a"], next_msg_id := 5,
            gcounter_data := { node_data := [], gossip_thread := false },
            broadcast_data := none, gossip_thread := false })],
        is_topology_done := false }
      { src := "c0", dest := "n1",
        body := { base := { typ := "init", msg_id := some 1, in_reply_to := none },
                  node_id := some "n1", node_ids := some ["b"] } })).isSome = true ∧
    (exceptOk? (init
      { nodes := [("n1",
          { id := "n1", peers := ["a"], next_msg_id := 5,
            gcounter_data := { node_data := [], gossip_thread := false },
            broadcast_data := none, gossip_thread := false })],
        is_topology_done := false }
      { src := "c0", dest := "n1",
        body := { base := { typ := "init", msg_id := some 1, in_reply_to := none },
                  node_id := some "n1", node_ids := some ["b"] } })).map
      (fun p => (p.1.get_node "n1").map Node.peers) = some (some ["b"]) := by
  decide

/-- C7, amended.  `register(id, peers)` (`Cluster::add_node`) always
succeeds: the registry afterwards maps the node's id to the new
`NodeState`, replacing any existing one (last registration wins), and
every other id's entry is unchanged. -/
theorem claim7_add_node_replaces (cl : Cluster) (node : Node) :
    (cl.add_node node).get_node node.id = some node ∧
    ∀ k, k ≠ node.id → (cl.add_node node).get_node k = cl.get_node k := by
  constructor
  · simp [Cluster.get_node, Cluster.add_node, lookupKV_insertKV_self]
  · intro k hk
    simp [Cluster.get_node, Cluster.add_node, lookupKV_insertKV_ne _ _ _ _ hk]

/-- Witness for the amended C7 at a concrete registry and node. -/
theorem claim7_witness :
    ((Cluster.new.add_node
        { id := "n1", peers := ["b"], next_msg_id := 0,
          gcounter_data := { node_data := [], gossip_thread := false },
          broadcast_data := none, gossip_thread := false }).get_node "n1" = some
        { id := "n1", peers := ["b"], next_msg_id := 0,
          gcounter_data := { node_data := [], gossip_thread := false },
          broadcast_data := none, gossip_thread := false }) ∧
    ((Cluster.new.add_node
        { id := "n1", peers := ["b"], next_msg_id := 0,
          gcounter_data := { node_data := [], gossip_thread := false },
          broadcast_data := none, gossip_thread := false }).get_node "x" =
      Cluster.new.get_node "x") :=
  ⟨(claim7_add_node_replaces Cluster.new _).1,
   (claim7_add_node_replaces Cluster.new _).2 "x" (by decide)⟩

/-! ## C6: unknown-node handling -/

/-- C6, counterexample.  The `broadcast` handler does not return a
recoverable `UnknownNode` error when the destination is absent from the
registry — it unwraps the lookup and panics (crashing the process),
contradicting the claim that no handler crashes on such a message. -/
theorem claim6_counterexample_broadcast_panics_on_unknown_node :
    broadcast Cluster.new
      { src := "c1", dest := "n1",
        body := { base := { typ := "broadcast", msg_id := some 1, in_reply_to := none },
                  message := some 5 } } = .error .panicked ∧
    HandlerError.panicked ≠ HandlerError.unknownNode "n1" := by
  decide

/-- C6, amended.  For a destination id absent from the registry, the
three counter handlers (`add`, `read`, counter `gossip`) return a
recoverable `UnknownNode` error surfaced to the caller, while the four
broadcast-side handlers (`broadcast`, `read`, `topology`, `gossip`)
unwrap the failed lookup and panic instead of returning an error. -/
theorem claim6_unknown_node_handling (cl : Cluster) (dest : String)
    (h : cl.get_node dest = none) :
    (∀ (src : String) (body : AddBody),
      Gcounter.add cl { src := src, dest := dest, body := body } =
        .error (.unknownNode dest)) ∧
    (∀ (src : String) (body : CounterReadBody),
      Gcounter.read cl { src := src, dest := dest, body := body } =
        .error (.unknownNode dest)) ∧
    (∀ (src : String) (body : CounterGossipBody),
      Gcounter.gossip cl { src := src, dest := dest, body := body } =
        .error (.unknownNode dest)) ∧
    (∀ (src : String) (body : BroadcastBody),
      broadcast cl { src := src, dest := dest, body := body } = .error .panicked) ∧
    (∀ (src : String) (body : ReadBody),
      read cl { src := src, dest := dest, body := body } = .error .panicked) ∧
    (∀ (src : String) (body : TopologyBody),
      topology cl { src := src, dest := dest, body := body } = .error .panicked) ∧
    (∀ (src : String) (body : GossipBody),
      gossip cl { src := src, dest := dest, body := body } = .error .panicked) := by
  refine ⟨?_, ?_, ?_, ?_, ?_, ?_, ?_⟩ <;> intro src body
  · simp [Gcounter.add, h]
  · simp [Gcounter.read, h]
  · simp [Gcounter.gossip, h]
  · simp [broadcast, h]
  · simp [read, h]
  · simp [topology, h]
  · simp [gossip, h]

/-- Witness for the amended C6 at an empty registry. -/
theorem claim6_witness :
    (Cluster.new.get_node "n1" = none) ∧
    Gcounter.add Cluster.new
      { src := "c1", dest := "n1",
        body := { base := { typ := "add", msg_id := some 1, in_reply_to := none },
                  delta := some 2 } } = .error (.unknownNode "n1") :=
  ⟨by decide,
   (claim6_unknown_node_handling Cluster.new "n1" (by decide)).1 "c1"
     { base := { typ := "add", msg_id := some 1, in_reply_to := none }, delta := some 2 }⟩

/-! ## C5: gossip batch preparation -/

theorem assignIds_eq (l : List String) : ∀ node : Node,
    assignIds node l =
      ({ node with next_msg_id := node.next_msg_id + l.length },
       l.zip (List.range' node.next_msg_id l.length)) := by
  induction l with
  | nil => intro node; simp [assignIds]
  | cons p rest ih =>
    intro node
    simp only [assignIds, Node.get_next_id, ih, List.range', List.zip_cons_cons,
      List.length_cons]
    have harith : node.next_msg_id + 1 + rest.length = node.next_msg_id + (rest.length + 1) := by
      omega
    rw [harith]

/-- C5.  For a registered node, `prepare_gossip_batch` produces no batch
exactly when the value-set size equals the stored watermark; otherwise it
advances the watermark to the current size and produces one target, with
a fresh consecutive message id drawn from the node's counter, for each
peer-list entry other than the node itself, alongside the full current
value set. -/
theorem claim5_prepare_gossip_batch (cl : Cluster) (nid : String) (node : Node)
    (h : cl.get_node nid = some node) :
    ((prepare_gossip_batch cl nid).2 = none ↔
      (node.broadcast_data.getD BroadcastData.new).data.card =
        (node.broadcast_data.getD BroadcastData.new).last_gossip_len) ∧
    ((node.broadcast_data.getD BroadcastData.new).data.card ≠
        (node.broadcast_data.getD BroadcastData.new).last_gossip_len →
      (prepare_gossip_batch cl nid).2 = some (node.id,
        (node.broadcast_data.getD BroadcastData.new).data,
        (node.peers.filter (fun peer => peer ≠ node.id)).zip
          (List.range' node.next_msg_id
            (node.peers.filter (fun peer => peer ≠ node.id)).length)) ∧
      ((prepare_gossip_batch cl nid).1.get_node nid).map
        (fun n => (n.broadcast_data.getD BroadcastData.new).last_gossip_len) =
        some (node.broadcast_data.getD BroadcastData.new).data.card) := by
  by_cases hc : (node.broadcast_data.getD BroadcastData.new).data.card =
      (node.broadcast_data.getD BroadcastData.new).last_gossip_len
  · constructor
    · simp [prepare_gossip_batch, h, BroadcastData.clone_data, hc]
    · intro hne
      exact absurd hc hne
  · constructor
    · simp [prepare_gossip_batch, h, BroadcastData.clone_data, hc]
    · intro _
      constructor
      · simp [prepare_gossip_batch, h, BroadcastData.clone_data, hc, assignIds_eq]
      · simp [prepare_gossip_batch, h, BroadcastData.clone_data, hc, assignIds_eq,
          get_node_update_self]

/-- Witness for C5 at a concrete registry: value set `{7}` against
watermark 0 produces the batch `[("n2", 4)]` for peer list
`["n1", "n2"]` and id counter 4. -/
theorem claim5_witness :
    (({ nodes := [("n1",
          { id := "n1", peers := ["n1", "n2"], next_msg_id := 4,
            gcounter_data := { node_data := [], gossip_thread := false },
            broadcast_data := some { data := {7}, seen_msg := ∅, last_gossip_len := 0 },
            gossip_thread := true })],
        is_topology_done := false } : Cluster).get_node "n1" = some
          { id := "n1", peers := ["n1", "n2"], next_msg_id := 4,
            gcounter_data := { node_data := [], gossip_thread := false },
            broadcast_data := some { data := {7}, seen_msg := ∅, last_gossip_len := 0 },
            gossip_thread := true }) ∧
    (prepare_gossip_batch
      { nodes := [("n1",
          { id := "n1", peers := ["n1", "n2"], next_msg_id := 4,
            gcounter_data := { node_data := [], gossip_thread := false },
            broadcast_data := some { data := {7}, seen_msg := ∅, last_gossip_len := 0 },
            gossip_thread := true })],
        is_topology_done := false } "n1").2 =
      some ("n1", ({7} : Finset Nat), [("n2", 4)]) := by
  refine ⟨by decide, ?_⟩
  exact ((claim5_prepare_gossip_batch
    { nodes := [("n1",
        { id := "n1", peers := ["n1", "n2"], next_msg_id := 4,
          gcounter_data := { node_data := [], gossip_thread := false },
          broadcast_data := some { data := {7}, seen_msg := ∅, last_gossip_len := 0 },
          gossip_thread := true })],
      is_topology_done := false } "n1"
    { id := "n1", peers := ["n1", "n2"], next_msg_id := 4,
      gcounter_data := { node_data := [], gossip_thread := false },
      broadcast_data := some { data := {7}, seen_msg := ∅, last_gossip_len := 0 },
      gossip_thread := true } (by decide)).2 (by decide)).1

/-! ## C4 / C10: the broadcast gossip handler -/

theorem lazyInit_eq (node : Node) :
    (if node.broadcast_data.isSome then node
     else { node with broadcast_data := some BroadcastData.new }) =
    { node with broadcast_data := some (node.broadcast_data.getD BroadcastData.new) } := by
  obtain ⟨nid, peers, nmi, gd, bd, gt⟩ := node
  cases bd <;> simp

theorem threadFlag_eq (node : Node) :
    (if node.gossip_thread then node else { node with gossip_thread := true }) =
    { node with gossip_thread := true } := by
  obtain ⟨nid, peers, nmi, gd, bd, gt⟩ := node
  cases gt <;> simp

theorem fanout_if_isEmpty (src : String) (data : Finset Nat) (s : Nat)
    (l : List String) (o : Nat) (os : String) :
    (if (l.zip (List.range' s l.length)).isEmpty then []
     else send_gossip_to_peers src data (l.zip (List.range' s l.length)) o os) =
    send_gossip_to_peers src data (l.zip (List.range' s l.length)) o os := by
  cases l <;> simp [send_gossip_to_peers, List.range']

/-- C4, counterexample.  A fresh, non-ack gossip message whose merged
value set has a size equal to the stored watermark produces neither a
`gossip_ok` reply nor any propagation — the handler panics on the `None`
from `prepare_gossip_batch` — although the claim's condition ("type is
not gossip_ok and the origin pair is unobserved") holds. -/
theorem claim4_counterexample_no_reply_despite_fresh :
    gossip
      { nodes := [("n1",
          { id := "n1", peers := ["n2"], next_msg_id := 3,
            gcounter_data := { node_data := [], gossip_thread := false },
            broadcast_data := some { data := {42}, seen_msg := ∅, last_gossip_len := 1 },
            gossip_thread := true })],
        is_topology_done := false }
      { src := "n2", dest := "n1",
        body := { base := { typ := "gossip", msg_id := some 5, in_reply_to := none },
                  gossip_data := some {42}, org_msg_id := 7, org_msg_src := "c9" } } =
      .error .panicked ∧
    ("gossip" : String) ≠ "gossip_ok" ∧
    (("c9", 7) ∉
      ({ data := {42}, seen_msg := ∅, last_gossip_len := 1 } : BroadcastData).seen_msg) := by
  decide

/-- C10.  Reachable panic: initialize `n1` with peers `[n1, n2]`, handle
one `broadcast(42)` (which sets the value set to `{42}` and the
watermark to 1), then deliver a fresh gossip message carrying `{42}` —
the merge adds nothing, the post-merge size equals the watermark,
`prepare_gossip_batch` returns `None`, and the handler's unwrap panics,
so no `gossip_ok` reply is produced. -/
theorem claim10_gossip_unwrap_panics_on_quiescent_merge :
    gossip
      (broadcastCluster
        (initCluster Cluster.new
          { src := "c0", dest := "n1",
            body := { base := { typ := "init", msg_id := some 0, in_reply_to := none },
                      node_id := some "n1", node_ids := some ["n1", "n2"] } })
        { src := "c0", dest := "n1",
          body := { base := { typ := "broadcast", msg_id := some 1, in_reply_to := none },
                    message := some 42 } })
      { src := "n2", dest := "n1",
        body := { base := { typ := "gossip", msg_id := some 2, in_reply_to := none },
                  gossip_data := some {42}, org_msg_id := 1, org_msg_src := "c0" } } =
      .error .panicked ∧
    gossipReply
      (gossip
        (broadcastCluster
          (initCluster Cluster.new
            { src := "c0", dest := "n1",
              body := { base := { typ := "init", msg_id := some 0, in_reply_to := none },
                        node_id := some "n1", node_ids := some ["n1", "n2"] } })
          { src := "c0", dest := "n1",
            body := { base := { typ := "broadcast", msg_id := some 1, in_reply_to := none },
                      message := some 42 } })
        { src := "n2", dest := "n1",
          body := { base := { typ := "gossip", msg_id := some 2, in_reply_to := none },
                    gossip_data := some {42}, org_msg_id := 1, org_msg_src := "c0" } }) =
      none := by
  constructor
  · decide
  · decide

/-- C4, amended.  Every received gossip message merges the incoming
value set into the receiver's set.  The handler then sends a `gossip_ok`
reply and re-triggers one round of outbound gossip tagged with the same
origin reference if and only if the message's type is not `gossip_ok`,
the `(org_msg_src, org_msg_id)` pair is unobserved, **and** the
post-merge value-set size differs from the stored watermark; an ack or a
repeat of an observed origin reference is dropped with no reply and no
propagation, while a fresh non-ack message whose merge leaves the size
equal to the watermark makes the handler panic on the `None` from
`prepare_gossip_batch` (producing no reply either). -/
theorem claim4_gossip_handler_behavior (cl : Cluster) (msg : Message GossipBody)
    (node : Node) (S : Finset Nat)
    (h : cl.get_node msg.dest = some node)
    (hid : node.id = msg.dest)
    (hdata : msg.body.gossip_data = some S) :
    ((msg.body.base.typ = "gossip_ok" ∨
        (msg.body.org_msg_src, msg.body.org_msg_id) ∈
          (node.broadcast_data.getD BroadcastData.new).seen_msg) →
      ∃ cl2, gossip cl msg = .ok (cl2, [], none) ∧
        (cl2.get_node msg.dest).map
          (fun n => (n.broadcast_data.getD BroadcastData.new).data) =
          some ((node.broadcast_data.getD BroadcastData.new).data ∪ S)) ∧
    (msg.body.base.typ ≠ "gossip_ok" →
      (msg.body.org_msg_src, msg.body.org_msg_id) ∉
        (node.broadcast_data.getD BroadcastData.new).seen_msg →
      ((node.broadcast_data.getD BroadcastData.new).data ∪ S).card =
        (node.broadcast_data.getD BroadcastData.new).last_gossip_len →
      gossip cl msg = .error .panicked) ∧
    (msg.body.base.typ ≠ "gossip_ok" →
      (msg.body.org_msg_src, msg.body.org_msg_id) ∉
        (node.broadcast_data.getD BroadcastData.new).seen_msg →
      ((node.broadcast_data.getD BroadcastData.new).data ∪ S).card ≠
        (node.broadcast_data.getD BroadcastData.new).last_gossip_len →
      ∃ cl2 rep, gossip cl msg = .ok (cl2,
          send_gossip_to_peers node.id
            ((node.broadcast_data.getD BroadcastData.new).data ∪ S)
            ((node.peers.filter (fun peer => peer ≠ node.id)).zip
              (List.range' (node.next_msg_id + 1)
                (node.peers.filter (fun peer => peer ≠ node.id)).length))
            msg.body.org_msg_id msg.body.org_msg_src,
          some rep) ∧
        rep.body.base.typ = "gossip_ok" ∧
        rep.dest = msg.src ∧
        rep.body.org_msg_id = msg.body.org_msg_id ∧
        rep.body.org_msg_src = msg.body.org_msg_src ∧
        rep.body.gossip_data =
          some ((node.broadcast_data.getD BroadcastData.new).data ∪ S) ∧
        (cl2.get_node msg.dest).map
          (fun n => (n.broadcast_data.getD BroadcastData.new).data) =
          some ((node.broadcast_data.getD BroadcastData.new).data ∪ S)) ∧
    ((gossipReply (gossip cl msg)).isSome = true ↔
      (msg.body.base.typ ≠ "gossip_ok" ∧
        (msg.body.org_msg_src, msg.body.org_msg_id) ∉
          (node.broadcast_data.getD BroadcastData.new).seen_msg ∧
        ((node.broadcast_data.getD BroadcastData.new).data ∪ S).card ≠
          (node.broadcast_data.getD BroadcastData.new).last_gossip_len)) := by
  have hA : (msg.body.base.typ = "gossip_ok" ∨
      (msg.body.org_msg_src, msg.body.org_msg_id) ∈
        (node.broadcast_data.getD BroadcastData.new).seen_msg) →
      ∃ cl2, gossip cl msg = .ok (cl2, [], none) ∧
        (cl2.get_node msg.dest).map
          (fun n => (n.broadcast_data.getD BroadcastData.new).data) =
          some ((node.broadcast_data.getD BroadcastData.new).data ∪ S) := by
    intro hcase
    by_cases htyp : msg.body.base.typ = "gossip_ok"
    · refine ⟨cl.update_node msg.dest
        { node with
            broadcast_data := some ((node.broadcast_data.getD BroadcastData.new).extend S),
            gossip_thread := true }, ?_, ?_⟩
      · simp only [gossip, h, hdata, lazyInit_eq]
        cases hgt : node.gossip_thread <;> simp [hgt, htyp]
      · simp [get_node_update_self, BroadcastData.extend]
    · have hmem : (msg.body.org_msg_src, msg.body.org_msg_id) ∈
          (node.broadcast_data.getD BroadcastData.new).seen_msg := by
        rcases hcase with hcase | hcase
        · exact absurd hcase htyp
        · exact hcase
      refine ⟨cl.update_node msg.dest
        { node with
            broadcast_data := some ((node.broadcast_data.getD BroadcastData.new).extend S),
            gossip_thread := true }, ?_, ?_⟩
      · simp only [gossip, h, hdata, lazyInit_eq]
        cases hgt : node.gossip_thread <;>
          simp [hgt, htyp, BroadcastData.add_if_not_present, BroadcastData.extend, hmem]
      · simp [get_node_update_self, BroadcastData.extend]
  have hB : msg.body.base.typ ≠ "gossip_ok" →
      (msg.body.org_msg_src, msg.body.org_msg_id) ∉
        (node.broadcast_data.getD BroadcastData.new).seen_msg →
      ((node.broadcast_data.getD BroadcastData.new).data ∪ S).card =
        (node.broadcast_data.getD BroadcastData.new).last_gossip_len →
      gossip cl msg = .error .panicked := by
    intro htyp hfresh hcard
    simp only [gossip, h, hdata, lazyInit_eq]
    cases hgt : node.gossip_thread <;>
      simp [hgt, htyp, BroadcastData.add_if_not_present, BroadcastData.extend, hfresh,
        Node.get_next_id, hid, prepare_gossip_batch, get_node_update_self,
        BroadcastData.clone_data, hcard]
  have hC : msg.body.base.typ ≠ "gossip_ok" →
      (msg.body.org_msg_src, msg.body.org_msg_id) ∉
        (node.broadcast_data.getD BroadcastData.new).seen_msg →
      ((node.broadcast_data.getD BroadcastData.new).data ∪ S).card ≠
        (node.broadcast_data.getD BroadcastData.new).last_gossip_len →
      ∃ cl2 rep, gossip cl msg = .ok (cl2,
          send_gossip_to_peers node.id
            ((node.broadcast_data.getD BroadcastData.new).data ∪ S)
            ((node.peers.filter (fun peer => peer ≠ node.id)).zip
              (List.range' (node.next_msg_id + 1)
                (node.peers.filter (fun peer => peer ≠ node.id)).length))
            msg.body.org_msg_id msg.body.org_msg_src,
          some rep) ∧
        rep.body.base.typ = "gossip_ok" ∧
        rep.dest = msg.src ∧
        rep.body.org_msg_id = msg.body.org_msg_id ∧
        rep.body.org_msg_src = msg.body.org_msg_src ∧
        rep.body.gossip_data =
          some ((node.broadcast_data.getD BroadcastData.new).data ∪ S) ∧
        (cl2.get_node msg.dest).map
          (fun n => (n.broadcast_data.getD BroadcastData.new).data) =
          some ((node.broadcast_data.getD BroadcastData.new).data ∪ S) := by
    intro htyp hfresh hcard
    refine ⟨((cl.update_node msg.dest
        { node with
            broadcast_data := some
              { data := (node.broadcast_data.getD BroadcastData.new).data ∪ S,
                seen_msg := Insert.insert (msg.body.org_msg_src, msg.body.org_msg_id)
                  (node.broadcast_data.getD BroadcastData.new).seen_msg,
                last_gossip_len :=
                  (node.broadcast_data.getD BroadcastData.new).last_gossip_len },
            gossip_thread := true,
            next_msg_id := node.next_msg_id + 1 }).update_node node.id
        { node with
            broadcast_data := some
              { data := (node.broadcast_data.getD BroadcastData.new).data ∪ S,
                seen_msg := Insert.insert (msg.body.org_msg_src, msg.body.org_msg_id)
                  (node.broadcast_data.getD BroadcastData.new).seen_msg,
                last_gossip_len :=
                  ((node.broadcast_data.getD BroadcastData.new).data ∪ S).card },
            gossip_thread := true,
            next_msg_id := node.next_msg_id + 1 +
              (node.peers.filter (fun peer => peer ≠ node.id)).length }),
      { src := node.id, dest := msg.src,
        body := { base := { typ := "gossip_ok",
                            in_reply_to := msg.body.base.msg_id,
                            msg_id := some node.next_msg_id },
                  gossip_data :=
                    some ((node.broadcast_data.getD BroadcastData.new).data ∪ S),
                  org_msg_id := msg.body.org_msg_id,
                  org_msg_src := msg.body.org_msg_src } }, ?_, rfl, rfl, rfl, rfl, rfl, ?_⟩
    · simp only [gossip, h, hdata, lazyInit_eq]
      cases hgt : node.gossip_thread <;>
        simp [hgt, htyp, BroadcastData.add_if_not_present, BroadcastData.extend, hfresh,
          Node.get_next_id, hid, prepare_gossip_batch, get_node_update_self,
          BroadcastData.clone_data, hcard, assignIds_eq, fanout_if_isEmpty] <;>
        · intro hall
          have hfil : List.filter (fun peer => !decide (peer = msg.dest)) node.peers = [] := by
            rw [List.filter_eq_nil_iff]
            intro a ha
            simp [hall a ha]
          simp [hfil, send_gossip_to_peers]
    · rw [← hid]
      simp [get_node_update_self]
  refine ⟨hA, hB, hC, ?_⟩
  by_cases htyp : msg.body.base.typ = "gossip_ok"
  · obtain ⟨cl2, heq, _⟩ := hA (Or.inl htyp)
    rw [heq]
    simp [gossipReply, htyp]
  · by_cases hmem : (msg.body.org_msg_src, msg.body.org_msg_id) ∈
        (node.broadcast_data.getD BroadcastData.new).seen_msg
    · obtain ⟨cl2, heq, _⟩ := hA (Or.inr hmem)
      rw [heq]
      simp [gossipReply, hmem]
    · by_cases hcard : ((node.broadcast_data.getD BroadcastData.new).data ∪ S).card =
          (node.broadcast_data.getD BroadcastData.new).last_gossip_len
      · rw [hB htyp hmem hcard]
        simp [gossipReply, hcard]
      · obtain ⟨cl2, rep, heq, _⟩ := hC htyp hmem hcard
        rw [heq]
        simp [gossipReply, htyp, hmem, hcard]

/-- Witness for the amended C4 at a concrete registry and message. -/
theorem claim4_witness :
    (({ nodes := [("n1",
          { id := "n1", peers := ["n1", "n2"], next_msg_id := 10,
            gcounter_data := { node_data := [], gossip_thread := false },
            broadcast_data := some { data := {1}, seen_msg := ∅, last_gossip_len := 0 },
            gossip_thread := true })],
        is_topology_done := false } : Cluster).get_node "n1" = some
          { id := "n1", peers := ["n1", "n2"], next_msg_id := 10,
            gcounter_data := { node_data := [], gossip_thread := false },
            broadcast_data := some { data := {1}, seen_msg := ∅, last_gossip_len := 0 },
            gossip_thread := true }) ∧
    (("n1" : String) = "n1") ∧
    (some ({2} : Finset Nat) = some ({2} : Finset Nat)) ∧
    ((gossipReply (gossip
        { nodes := [("n1",
            { id := "n1", peers := ["n1", "n2"], next_msg_id := 10,
              gcounter_data := { node_data := [], gossip_thread := false },
              broadcast_data := some { data := {1}, seen_msg := ∅, last_gossip_len := 0 },
              gossip_thread := true })],
          is_topology_done := false }
        { src := "n2", dest := "n1",
          body := { base := { typ := "gossip", msg_id := some 4, in_reply_to := none },
                    gossip_data := some {2}, org_msg_id := 5,
                    org_msg_src := "c1" } })).isSome = true ↔
      (("gossip" : String) ≠ "gossip_ok" ∧
        (("c1", 5) ∉
          (({ data := {1}, seen_msg := ∅, last_gossip_len := 0 } : BroadcastData)).seen_msg) ∧
        ((({ data := {1}, seen_msg := ∅, last_gossip_len := 0 } : BroadcastData)).data ∪
            ({2} : Finset Nat)).card ≠
          (({ data := {1}, seen_msg := ∅, last_gossip_len := 0 } : BroadcastData)).last_gossip_len)) := by
  refine ⟨by decide, rfl, rfl, ?_⟩
  exact (claim4_gossip_handler_behavior
    { nodes := [("n1",
        { id := "n1", peers := ["n1", "n2"], next_msg_id := 10,
          gcounter_data := { node_data := [], gossip_thread := false },
          broadcast_data := some { data := {1}, seen_msg := ∅, last_gossip_len := 0 },
          gossip_thread := true })],
      is_topology_done := false }
    { src := "n2", dest := "n1",
      body := { base := { typ := "gossip", msg_id := some 4, in_reply_to := none },
                gossip_data := some {2}, org_msg_id := 5, org_msg_src := "c1" } }
    { id := "n1", peers := ["n1", "n2"], next_msg_id := 10,
      gcounter_data := { node_data := [], gossip_thread := false },
      broadcast_data := some { data := {1}, seen_msg := ∅, last_gossip_len := 0 },
      gossip_thread := true }
    ({2} : Finset Nat) (by decide) (by decide) (by decide)).2.2.2

/-! ## C1: topology builder -/

theorem lookupKV_graphPush (g : Graph) (a b x : String) :
    lookupKV (graphPush g a b) x =
      if x = a then some ((lookupKV g x).getD [] ++ [b]) else lookupKV g x := by
  induction g with
  | nil =>
    simp only [graphPush, lookupKV]
    by_cases hx : a = x
    · subst hx
      simp
    · rw [if_neg hx, if_neg (fun hh => hx hh.symm)]
  | cons hd t ih =>
    obtain ⟨k, vs⟩ := hd
    simp only [graphPush]
    by_cases hk : k = a
    · subst hk
      rw [if_pos rfl]
      by_cases hkx : k = x
      · subst hkx
        simp [lookupKV]
      · simp only [lookupKV, if_neg hkx]
        rw [if_neg (fun hh => hkx hh.symm)]
    · rw [if_neg hk]
      by_cases hkx : k = x
      · subst hkx
        simp [lookupKV, hk]
      · simp only [lookupKV, if_neg hkx]
        exact ih

theorem graphGet_graphPush (g : Graph) (a b x : String) :
    graphGet (graphPush g a b) x =
      if x = a then graphGet g x ++ [b] else graphGet g x := by
  unfold graphGet
  rw [lookupKV_graphPush]
  by_cases hx : x = a
  · rw [if_pos hx, if_pos hx]
    simp
  · rw [if_neg hx, if_neg hx]

theorem adjacent_addBi_iff (g : Graph) (a b x y : String) :
    adjacent (add_bidirectional_edge g a b) x y ↔
      adjacent g x y ∨ (x = a ∧ y = b) ∨ (x = b ∧ y = a) := by
  unfold adjacent add_bidirectional_edge
  rw [graphGet_graphPush, graphGet_graphPush]
  by_cases hxb : x = b <;> by_cases hxa : x = a
  · rw [if_pos hxb, if_pos hxa]
    simp only [List.mem_append, List.mem_singleton]
    constructor
    · rintro ((h | h) | h)
      · exact Or.inl h
      · exact Or.inr (Or.inl ⟨hxa, h⟩)
      · exact Or.inr (Or.inr ⟨hxb, h⟩)
    · rintro (h | ⟨_, h⟩ | ⟨_, h⟩)
      · exact Or.inl (Or.inl h)
      · exact Or.inl (Or.inr h)
      · exact Or.inr h
  · rw [if_pos hxb, if_neg hxa]
    simp only [List.mem_append, List.mem_singleton]
    constructor
    · rintro (h | h)
      · exact Or.inl h
      · exact Or.inr (Or.inr ⟨hxb, h⟩)
    · rintro (h | ⟨hx, _⟩ | ⟨_, h⟩)
      · exact Or.inl h
      · exact absurd hx hxa
      · exact Or.inr h
  · rw [if_neg hxb, if_pos hxa]
    simp only [List.mem_append, List.mem_singleton]
    constructor
    · rintro (h | h)
      · exact Or.inl h
      · exact Or.inr (Or.inl ⟨hxa, h⟩)
    · rintro (h | ⟨_, h⟩ | ⟨hx, _⟩)
      · exact Or.inl h
      · exact Or.inr h
      · exact absurd hx hxb
  · rw [if_neg hxb, if_neg hxa]
    constructor
    · exact Or.inl
    · rintro (h | ⟨hx, _⟩ | ⟨hx, _⟩)
      · exact h
      · exact absurd hx hxa
      · exact absurd hx hxb

theorem symm_addBi (g : Graph) (a b : String) (hs : SymmGraph g) :
    SymmGraph (add_bidirectional_edge g a b) := by
  intro x y hxy
  rw [adjacent_addBi_iff] at hxy ⊢
  rcases hxy with h | ⟨hx, hy⟩ | ⟨hx, hy⟩
  · exact Or.inl (hs x y h)
  · exact Or.inr (Or.inr ⟨hy, hx⟩)
  · exact Or.inr (Or.inl ⟨hy, hx⟩)

theorem reachN_mono (g g2 : Graph)
    (hsub : ∀ x y, adjacent g x y → adjacent g2 x y) :
    ∀ (n : Nat) (a b : String), reachN g n a b → reachN g2 n a b := by
  intro n
  induction n with
  | zero => intro a b h; exact h
  | succ n ih =>
    intro a b h
    rcases h with h | ⟨v, hv, hadj⟩
    · exact Or.inl (ih a b h)
    · exact Or.inr ⟨v, ih a v hv, hsub v b hadj⟩

theorem reachN_of_le (g : Graph) {m n : Nat} (h : m ≤ n) {a b : String} :
    reachN g m a b → reachN g n a b := by
  induction n with
  | zero =>
    intro hr
    have hm : m = 0 := Nat.le_zero.mp h
    subst hm
    exact hr
  | succ n ih =>
    intro hr
    by_cases hm : m = n + 1
    · subst hm
      exact hr
    · exact Or.inl (ih (by omega) hr)

theorem reachN_two_of_adjacent (g : Graph) {a b : String} (h : adjacent g a b) :
    reachN g 2 a b :=
  Or.inl (Or.inr ⟨a, rfl, h⟩)

theorem reach2_iff (g : Graph) (a b : String) :
    reachN g 2 a b ↔
      a = b ∨ adjacent g a b ∨ ∃ v, adjacent g a v ∧ adjacent g v b := by
  constructor
  · rintro ((h | ⟨v, hv, hadj⟩) | ⟨v, hv, hadj⟩)
    · exact Or.inl h
    · rcases hv with rfl
      exact Or.inr (Or.inl hadj)
    · rcases hv with hv | ⟨w, hw, hadj2⟩
      · rcases hv with rfl
        exact Or.inr (Or.inl hadj)
      · rcases hw with rfl
        exact Or.inr (Or.inr ⟨v, hadj2, hadj⟩)
  · rintro (rfl | h | ⟨v, h1, h2⟩)
    · exact Or.inl (Or.inl rfl)
    · exact reachN_two_of_adjacent g h
    · exact Or.inr ⟨v, Or.inr ⟨a, rfl, h1⟩, h2⟩

theorem reachN_two_symm (g : Graph) (hs : SymmGraph g) {a b : String}
    (h : reachN g 2 a b) : reachN g 2 b a := by
  rw [reach2_iff] at h ⊢
  rcases h with rfl | h | ⟨v, h1, h2⟩
  · exact Or.inl rfl
  · exact Or.inr (Or.inl (hs _ _ h))
  · exact Or.inr (Or.inr ⟨v, hs _ _ h2, hs _ _ h1⟩)

theorem visitNeighbors_none (t : String) :
    ∀ (ns vis : List String) (q : List (String × Nat)) (d : Nat),
      visitNeighbors t ns vis q d = none → t ∈ ns := by
  intro ns
  induction ns with
  | nil =>
    intro vis q d h
    simp [visitNeighbors] at h
  | cons n ns ih =>
    intro vis q d h
    simp only [visitNeighbors] at h
    by_cases hn : n = t
    · subst hn
      exact List.mem_cons_self n ns
    · rw [if_neg hn] at h
      by_cases hv : vis.contains n
      · rw [if_pos hv] at h
        exact List.mem_cons_of_mem _ (ih _ _ _ h)
      · rw [if_neg hv] at h
        exact List.mem_cons_of_mem _ (ih _ _ _ h)

theorem visitNeighbors_some (t : String) :
    ∀ (ns vis : List String) (q : List (String × Nat)) (d : Nat)
      (vis2 : List String) (q2 : List (String × Nat)),
      visitNeighbors t ns vis q d = some (vis2, q2) →
      ∀ p ∈ q2, p ∈ q ∨ (p.1 ∈ ns ∧ p.2 = d + 1) := by
  intro ns
  induction ns with
  | nil =>
    intro vis q d vis2 q2 h p hp
    simp only [visitNeighbors, Option.some.injEq, Prod.mk.injEq] at h
    obtain ⟨h1, h2⟩ := h
    subst h2
    exact Or.inl hp
  | cons n ns ih =>
    intro vis q d vis2 q2 h p hp
    simp only [visitNeighbors] at h
    by_cases hn : n = t
    · rw [if_pos hn] at h
      exact absurd h (by simp)
    · rw [if_neg hn] at h
      by_cases hv : vis.contains n
      · rw [if_pos hv] at h
        rcases ih _ _ _ _ _ h p hp with hq | ⟨hm, hd⟩
        · exact Or.inl hq
        · exact Or.inr ⟨List.mem_cons_of_mem _ hm, hd⟩
      · rw [if_neg hv] at h
        rcases ih _ _ _ _ _ h p hp with hq | ⟨hm, hd⟩
        · rcases List.mem_append.mp hq with hq | hq
          · exact Or.inl hq
          · have hpn : p = (n, d + 1) := by simpa using hq
            subst hpn
            exact Or.inr ⟨List.mem_cons_self n ns, rfl⟩
        · exact Or.inr ⟨List.mem_cons_of_mem _ hm, hd⟩

theorem bfsLoop_sound (g : Graph) (t s : String) :
    ∀ (fuel : Nat) (q : List (String × Nat)) (vis : List String),
      (∀ p ∈ q, p.2 ≤ 2 ∧ reachN g p.2 s p.1) →
      bfsLoop g t fuel q vis = true → reachN g 2 s t := by
  intro fuel
  induction fuel with
  | zero =>
    intro q vis hinv h
    simp [bfsLoop] at h
  | succ fuel ih =>
    intro q vis hinv h
    cases q with
    | nil => simp [bfsLoop] at h
    | cons cd rest =>
      obtain ⟨c, d⟩ := cd
      simp only [bfsLoop] at h
      by_cases hd : 2 ≤ d
      · rw [if_pos hd] at h
        exact ih rest vis (fun p hp => hinv p (List.mem_cons_of_mem _ hp)) h
      · rw [if_neg hd] at h
        obtain ⟨hd2, hreach⟩ := hinv (c, d) (List.mem_cons_self _ _)
        cases hvn : visitNeighbors t (graphGet g c) vis rest d with
        | none =>
          have hmem := visitNeighbors_none t _ _ _ _ hvn
          have hrt : reachN g (d + 1) s t := Or.inr ⟨c, hreach, hmem⟩
          exact reachN_of_le g (by omega) hrt
        | some pair =>
          obtain ⟨vis2, q2⟩ := pair
          rw [hvn] at h
          apply ih q2 vis2 ?_ h
          intro p hp
          rcases visitNeighbors_some t _ _ _ _ _ _ hvn p hp with hq | ⟨hm, hdp⟩
          · exact hinv p (List.mem_cons_of_mem _ hq)
          · refine ⟨by omega, ?_⟩
            rw [hdp]
            exact Or.inr ⟨c, hreach, hm⟩

theorem is_within_two_hops_sound (g : Graph) (s t : String)
    (h : is_within_two_hops g s t = true) : reachN g 2 s t := by
  unfold is_within_two_hops at h
  by_cases hst : s = t
  · subst hst
    exact reachN_of_le g (Nat.zero_le 2) rfl
  · rw [if_neg hst] at h
    apply bfsLoop_sound g t s _ _ _ _ h
    intro p hp
    have hps : p = (s, 0) := by simpa using hp
    subst hps
    exact ⟨by omega, rfl⟩

theorem symm_foldl_addBi (l : List (String × String)) :
    ∀ g, SymmGraph g →
      SymmGraph (l.foldl (fun g ab => add_bidirectional_edge g ab.1 ab.2) g) := by
  induction l with
  | nil => intro g hg; exact hg
  | cons ab l ih => intro g hg; exact ih _ (symm_addBi g ab.1 ab.2 hg)

theorem adjacent_topoStep (g : Graph) (ab : String × String) (x y : String)
    (h : adjacent g x y) : adjacent (topoStep g ab) x y := by
  unfold topoStep
  split
  · exact h
  · exact (adjacent_addBi_iff g ab.1 ab.2 x y).mpr (Or.inl h)

theorem adjacent_foldl_topoStep (ps : List (String × String)) :
    ∀ (g : Graph) (x y : String), adjacent g x y →
      adjacent (ps.foldl topoStep g) x y := by
  induction ps with
  | nil => intro g x y h; exact h
  | cons ab ps ih =>
    intro g x y h
    exact ih _ x y (adjacent_topoStep g ab x y h)

theorem symm_topoStep (g : Graph) (ab : String × String) (hs : SymmGraph g) :
    SymmGraph (topoStep g ab) := by
  unfold topoStep
  split
  · exact hs
  · exact symm_addBi g ab.1 ab.2 hs

theorem foldl_topoStep_spec (ps : List (String × String)) :
    ∀ g, SymmGraph g →
      SymmGraph (ps.foldl topoStep g) ∧
      ∀ p ∈ ps, reachN (ps.foldl topoStep g) 2 p.1 p.2 := by
  induction ps with
  | nil =>
    intro g hg
    exact ⟨hg, by simp⟩
  | cons ab ps ih =>
    intro g hg
    obtain ⟨hsymm, hps⟩ := ih (topoStep g ab) (symm_topoStep g ab hg)
    refine ⟨hsymm, ?_⟩
    intro p hp
    rcases List.mem_cons.mp hp with rfl | hp
    · have hstep : reachN (topoStep g p) 2 p.1 p.2 := by
        unfold topoStep
        by_cases hw : is_within_two_hops g p.1 p.2 = true
        · rw [if_pos hw]
          exact is_within_two_hops_sound g p.1 p.2 hw
        · rw [if_neg hw]
          exact reachN_two_of_adjacent _
            ((adjacent_addBi_iff g p.1 p.2 p.1 p.2).mpr (Or.inr (Or.inl ⟨rfl, rfl⟩)))
      exact reachN_mono _ _ (adjacent_foldl_topoStep ps _) 2 p.1 p.2 hstep
    · exact hps p hp

theorem allPairs_cover {α : Type} (l : List α) (a b : α) (ha : a ∈ l) (hb : b ∈ l) :
    a = b ∨ (a, b) ∈ allPairs l ∨ (b, a) ∈ allPairs l := by
  induction l with
  | nil => cases ha
  | cons x xs ih =>
    have hall : allPairs (x :: xs) = xs.map (fun y => (x, y)) ++ allPairs xs := rfl
    rcases List.mem_cons.mp ha with rfl | ha2
    · rcases List.mem_cons.mp hb with rfl | hb2
      · exact Or.inl rfl
      · refine Or.inr (Or.inl ?_)
        rw [hall]
        exact List.mem_append.mpr (Or.inl (List.mem_map.mpr ⟨b, hb2, rfl⟩))
    · rcases List.mem_cons.mp hb with rfl | hb2
      · refine Or.inr (Or.inr ?_)
        rw [hall]
        exact List.mem_append.mpr (Or.inl (List.mem_map.mpr ⟨a, ha2, rfl⟩))
      · rcases ih ha2 hb2 with h | h | h
        · exact Or.inl h
        · refine Or.inr (Or.inl ?_)
          rw [hall]
          exact List.mem_append.mpr (Or.inr h)
        · refine Or.inr (Or.inr ?_)
          rw [hall]
          exact List.mem_append.mpr (Or.inr h)

/-- C1.  For every node-id list, the topology graph built by
`build_optimized_topology` — chain pass, then a direct edge for every
pair not already within two hops per the depth-2-bounded BFS — is
symmetric, and every pair of listed ids is connected by a path of at
most 2 edges. -/
theorem claim1_topology_symmetric_within_two_hops (nodes : List String) :
    SymmGraph (build_optimized_topology nodes) ∧
    ∀ a ∈ nodes, ∀ b ∈ nodes, reachN (build_optimized_topology nodes) 2 a b := by
  have hchain : SymmGraph ((nodes.zip nodes.tail).foldl
      (fun g ab => add_bidirectional_edge g ab.1 ab.2) []) := by
    apply symm_foldl_addBi
    intro x y h
    simp [adjacent, graphGet, lookupKV] at h
  obtain ⟨hsymm, hpairs⟩ := foldl_topoStep_spec (allPairs nodes) _ hchain
  have hbuild : build_optimized_topology nodes =
      (allPairs nodes).foldl topoStep ((nodes.zip nodes.tail).foldl
        (fun g ab => add_bidirectional_edge g ab.1 ab.2) []) := rfl
  refine ⟨by rw [hbuild]; exact hsymm, ?_⟩
  intro a ha b hb
  rw [hbuild]
  rcases allPairs_cover nodes a b ha hb with rfl | h | h
  · exact reachN_of_le _ (Nat.zero_le 2) rfl
  · exact hpairs (a, b) h
  · exact reachN_two_symm _ hsymm (hpairs (b, a) h)

/-- Witness for C1 at the three-node list from the spec's scenario. -/
theorem claim1_witness :
    (("n1" : String) ∈ ["n1", "n2", "n3"]) ∧
    reachN (build_optimized_topology ["n1", "n2", "n3"]) 2 "n1" "n3" :=
  ⟨by decide,
   (claim1_topology_symmetric_within_two_hops ["n1", "n2", "n3"]).2 "n1" (by decide)
     "n3" (by decide)⟩

/-! ## C9: LRU cache -/

theorem toFinset_dropLast_of_nodup (L : List Nat) (hL : L ≠ []) (hnd : L.Nodup) :
    L.dropLast.toFinset = L.toFinset.erase (L.getLast hL) := by
  have hsplit := List.dropLast_append_getLast hL
  have hlast_notmem : L.getLast hL ∉ L.dropLast := by
    have hnd2 : (L.dropLast ++ [L.getLast hL]).Nodup := by rw [hsplit]; exact hnd
    have hdisj := List.disjoint_of_nodup_append hnd2
    intro hmem
    exact hdisj hmem (List.mem_singleton.mpr rfl)
  ext a
  simp only [Finset.mem_erase, List.mem_toFinset]
  constructor
  · intro ha
    refine ⟨fun heq => hlast_notmem (heq ▸ ha), ?_⟩
    exact (List.dropLast_sublist L).mem ha
  · rintro ⟨hne, haL⟩
    have haL2 : a ∈ L.dropLast ++ [L.getLast hL] := by rw [hsplit]; exact haL
    rcases List.mem_append.mp haL2 with hmem | hmem
    · exact hmem
    · exact absurd (List.mem_singleton.mp hmem) hne

/-- C9.  Under the representation invariant, `add_val` moves an existing
key to the most-recently-used position without changing the key set,
inserts an absent key at the most-recently-used position, and when the
insertion takes the table beyond the capacity it evicts exactly the
least-recently-used key; after every touch the invariant is preserved
(the table matches the linked-list contents) and the number of stored
keys is at most `max C 1`. -/
theorem claim9_lru_touch (c : LRUCache) (val : Nat) (h : c.WF) :
    (val ∈ c.keys →
      (c.add_val val).keys = c.keys ∧
      (c.add_val val).order.head? = some val ∧
      (c.add_val val).order.toFinset = c.order.toFinset) ∧
    (val ∉ c.keys → c.keys.card + 1 ≤ c.size →
      (c.add_val val).keys = Insert.insert val c.keys ∧
      (c.add_val val).order = val :: c.order) ∧
    (val ∉ c.keys → c.size < c.keys.card + 1 →
      (c.add_val val).keys =
        (Insert.insert val c.keys).erase ((val :: c.order).getLast (by simp)) ∧
      (c.add_val val).order = (val :: c.order).dropLast) ∧
    (c.add_val val).WF ∧
    (c.keys.card ≤ max c.size 1 → (c.add_val val).keys.card ≤ max c.size 1) := by
  obtain ⟨hnd, hkeys⟩ := h
  by_cases hmem : val ∈ c.keys
  · have hmemo : val ∈ c.order := by
      rw [hkeys] at hmem
      exact List.mem_toFinset.mp hmem
    have hres : c.add_val val = { c with order := val :: c.order.erase val } := by
      simp [LRUCache.add_val, hmem]
    have htf : (val :: c.order.erase val).toFinset = c.order.toFinset := by
      ext a
      simp only [List.toFinset_cons, Finset.mem_insert, List.mem_toFinset,
        hnd.mem_erase_iff]
      constructor
      · rintro (rfl | ⟨_, ha⟩)
        · exact hmemo
        · exact ha
      · intro ha
        by_cases hav : a = val
        · exact Or.inl hav
        · exact Or.inr ⟨hav, ha⟩
    refine ⟨fun _ => ⟨?_, ?_, ?_⟩, fun hab => absurd hmem hab,
      fun hab => absurd hmem hab, ⟨?_, ?_⟩, ?_⟩
    · rw [hres]
    · rw [hres]
      rfl
    · rw [hres]
      exact htf
    · rw [hres]
      exact List.Nodup.cons (hnd.not_mem_erase) (hnd.erase val)
    · rw [hres]
      simpa [htf] using hkeys
    · intro hb
      rw [hres]
      exact hb
  · have hmemo : val ∉ c.order := by
      intro hx
      exact hmem (hkeys ▸ List.mem_toFinset.mpr hx)
    have hcard : (Insert.insert val c.keys).card = c.keys.card + 1 :=
      Finset.card_insert_of_not_mem hmem
    have hndc : (val :: c.order).Nodup := List.Nodup.cons hmemo hnd
    have hkeysc : Insert.insert val c.keys = (val :: c.order).toFinset := by
      rw [List.toFinset_cons, hkeys]
    by_cases hcap : c.size < c.keys.card + 1
    · have hres : c.add_val val =
          { c with
              order := (val :: c.order).dropLast,
              keys := (Insert.insert val c.keys).erase
                ((val :: c.order).getLast (by simp)) } := by
        simp only [LRUCache.add_val, if_neg hmem, hcard, if_pos hcap,
          LRUCache.remove_last_used_val]
        rw [List.getLast?_eq_getLast_of_ne_nil (by simp : val :: c.order ≠ [])]
      refine ⟨fun hab => absurd hab hmem, fun _ hab => absurd hcap (by omega),
        fun _ _ => ⟨?_, ?_⟩, ⟨?_, ?_⟩, ?_⟩
      · rw [hres]
      · rw [hres]
      · rw [hres]
        exact (List.dropLast_sublist _).nodup hndc
      · rw [hres]
        simp only
        rw [hkeysc, ← toFinset_dropLast_of_nodup (val :: c.order) (by simp) hndc]
      · intro hb
        rw [hres]
        simp only
        have hlast_mem : (val :: c.order).getLast (by simp) ∈ Insert.insert val c.keys := by
          rw [hkeysc]
          exact List.mem_toFinset.mpr (List.getLast_mem _)
        rw [Finset.card_erase_of_mem hlast_mem, hcard]
        omega
    · have hres : c.add_val val =
          { c with order := val :: c.order, keys := Insert.insert val c.keys } := by
        simp only [LRUCache.add_val, if_neg hmem, hcard, if_neg hcap]
      refine ⟨fun hab => absurd hab hmem, fun _ _ => ⟨?_, ?_⟩,
        fun _ hab => absurd hab (by omega), ⟨?_, ?_⟩, ?_⟩
      · rw [hres]
      · rw [hres]
      · rw [hres]
        exact hndc
      · rw [hres]
        exact hkeysc
      · intro hb
        rw [hres]
        simp only
        rw [hcard]
        omega

/-- Witness for C9 at a concrete cache. -/
theorem claim9_witness :
    (({ size := 2, order := [1, 2], keys := {1, 2} } : LRUCache)).WF ∧
    (((({ size := 2, order := [1, 2], keys := {1, 2} } : LRUCache)).add_val 3).WF ∧
      (({ size := 2, order := [1, 2], keys := {1, 2} } : LRUCache)).keys.card ≤
          max 2 1 →
        ((({ size := 2, order := [1, 2], keys := {1, 2} } : LRUCache)).add_val 3).keys.card ≤
          max 2 1) := by
  have hwf : (({ size := 2, order := [1, 2], keys := {1, 2} } : LRUCache)).WF := by
    constructor
    · decide
    · decide
  exact ⟨hwf, fun _ =>
    (claim9_lru_touch { size := 2, order := [1, 2], keys := {1, 2} } 3 hwf).2.2.2.2
      (by decide)⟩

end Vortex
